import Mathlib

set_option maxRecDepth 8192

/-!
Shallow embedding of `src/user_agents/user_agent.rs`: a classifier that turns a
raw HTTP User-Agent string into a `DeviceInfo` record (platform, device family,
OS family, major browser version).

The Rust code calls the external Woothee parsing library
(`Parser::new().parse(user_agent).unwrap_or_default()`).  Woothee is a third
party black box that is not part of this repository, so the embedding takes the
parser as an explicit parameter `parse : String -> Option WootheeResult`; the
`unwrap_or_default` fallback is embedded as `Option.getD WootheeResult.default`
with the derived-`Default` baseline of empty strings.

String primitives are modelled over `List Char` (structurally recursive, so
concrete inputs evaluate in the kernel).  `lowerStr` models Rust
`str::to_lowercase` on the ASCII range, which is the range every token the
classifier compares against lives in.  `firefox_version` is a Rust `u32`;
it is modelled as `Nat` together with the overflow-rejecting parse
(`parseU32Chars`), which mirrors `str::parse::<u32>` -- optional leading `+`,
ASCII digits only, error (hence fallback 0) past `2^32 - 1`.
-/

def lowerStr (s : String) : String :=
  String.mk (s.data.map Char.toLower)

def startsWithStr (s pre : String) : Bool :=
  pre.data.isPrefixOf s.data

def hasSubstr (pat : List Char) : List Char → Bool
  | [] => pat.isEmpty
  | c :: rest => pat.isPrefixOf (c :: rest) || hasSubstr pat rest

def containsStr (s pat : String) : Bool :=
  hasSubstr pat.data s.data

def splitDot : List Char → List (List Char)
  | [] => [[]]
  | c :: rest =>
    if c = '.' then [] :: splitDot rest
    else
      match splitDot rest with
      | [] => [[c]]
      | h :: t => (c :: h) :: t

def stripPlus : List Char → List Char
  | [] => []
  | c :: rest => if c = '+' then rest else c :: rest

def digitsToNat (cs : List Char) : Nat :=
  cs.foldl (fun a c => a * 10 + (c.toNat - 48)) 0

def parseU32Chars (cs : List Char) : Option Nat :=
  let ds := stripPlus cs
  if ds.isEmpty then none
  else if ds.all Char.isDigit then
    if digitsToNat ds < 4294967296 then some (digitsToNat ds) else none
  else none

inductive Platform where
  | FirefoxDesktop
  | Fenix
  | FirefoxIOS
  | Other
  deriving DecidableEq, Repr

inductive DeviceFamily where
  | Desktop
  | Mobile
  | Tablet
  | Other
  deriving DecidableEq, Repr

inductive OsFamily where
  | Windows
  | MacOs
  | Linux
  | IOS
  | Android
  | Other
  deriving DecidableEq, Repr

structure DeviceInfo where
  platform : Platform
  device_family : DeviceFamily
  os_family : OsFamily
  firefox_version : Nat
  deriving DecidableEq, Repr

/-- The derived `Default` of `DeviceInfo`: every enum at its `#[default]`
variant `Other` and version 0.  This is the "unrecognized input" sentinel. -/
def DeviceInfo.default : DeviceInfo :=
  { platform := Platform.Other
    device_family := DeviceFamily.Other
    os_family := OsFamily.Other
    firefox_version := 0 }

/-- `is_desktop`: `matches!(device_family, Desktop) || matches!(os_family, MacOs | Windows | Linux)`. -/
def DeviceInfo.is_desktop (d : DeviceInfo) : Bool :=
  (match d.device_family with
   | DeviceFamily.Desktop => true
   | _ => false)
  || (match d.os_family with
      | OsFamily.MacOs | OsFamily.Windows | OsFamily.Linux => true
      | _ => false)

/-- `is_mobile`: `matches!(device_family, Mobile) && matches!(os_family, Android | IOS)`. -/
def DeviceInfo.is_mobile (d : DeviceInfo) : Bool :=
  (match d.device_family with
   | DeviceFamily.Mobile => true
   | _ => false)
  && (match d.os_family with
      | OsFamily.Android | OsFamily.IOS => true
      | _ => false)

/-- `is_ios`: `matches!(device_family, Mobile) && matches!(os_family, IOS)`. -/
def DeviceInfo.is_ios (d : DeviceInfo) : Bool :=
  (match d.device_family with
   | DeviceFamily.Mobile => true
   | _ => false)
  && (match d.os_family with
      | OsFamily.IOS => true
      | _ => false)

/-- `is_fenix`: `matches!(device_family, Mobile) && matches!(os_family, Android)`. -/
def DeviceInfo.is_fenix (d : DeviceInfo) : Bool :=
  (match d.device_family with
   | DeviceFamily.Mobile => true
   | _ => false)
  && (match d.os_family with
      | OsFamily.Android => true
      | _ => false)

/-- The slice of Woothee's result record that `get_device_info` reads. -/
structure WootheeResult where
  name : String
  category : String
  os : String
  version : String
  deriving DecidableEq, Repr

/-- The derived `Default` baseline substituted by `unwrap_or_default()` when the
external parser produces no result: all fields empty strings. -/
def WootheeResult.default : WootheeResult :=
  { name := "", category := "", os := "", version := "" }

/-- Lines 116-120: if the raw user agent, lower-cased, starts with
`firefox-ios`, override name/category/os in the baseline. -/
def correctIos (user_agent : String) (w : WootheeResult) : WootheeResult :=
  if startsWithStr (lowerStr user_agent) "firefox-ios" then
    { w with name := "firefox", category := "smartphone", os := "iphone" }
  else w

/-- Lines 127-131: if the (possibly already corrected) baseline name is
`safari` and the lower-cased raw user agent has no `firefox/` substring,
override name/category/os to the iPad shape. -/
def correctSafari (user_agent : String) (w : WootheeResult) : WootheeResult :=
  if (lowerStr w.name == "safari") && !(containsStr (lowerStr user_agent) "firefox/") then
    { w with name := "firefox", category := "smartphone", os := "ipad" }
  else w

/-- Lines 139-146: the OS-family match; the guard arm
`_ if os.starts_with("windows")` is tried first, then the literal arms. -/
def osFamilyOf (os : String) : OsFamily :=
  if startsWithStr os "windows" then OsFamily.Windows
  else if os == "mac osx" then OsFamily.MacOs
  else if os == "linux" then OsFamily.Linux
  else if os == "iphone" || os == "ipad" then OsFamily.IOS
  else if os == "android" then OsFamily.Android
  else OsFamily.Other

/-- Lines 148-153: the device-family match on the raw `category` field, with
the guarded `"smartphone" if os == "ipad"` arm before the plain
`"smartphone"` arm. -/
def deviceFamilyOf (category os : String) : DeviceFamily :=
  if category == "pc" then DeviceFamily.Desktop
  else if category == "smartphone" && os == "ipad" then DeviceFamily.Tablet
  else if category == "smartphone" then DeviceFamily.Mobile
  else DeviceFamily.Other

/-- Lines 155-167: platform as a function of device family and OS family. -/
def platformOf (device_family : DeviceFamily) (os_family : OsFamily) : Platform :=
  match device_family with
  | DeviceFamily.Desktop => Platform.FirefoxDesktop
  | DeviceFamily.Mobile =>
    match os_family with
    | OsFamily.IOS => Platform.FirefoxIOS
    | OsFamily.Android => Platform.Fenix
    | _ => Platform.Other
  | DeviceFamily.Tablet =>
    match os_family with
    | OsFamily.IOS => Platform.FirefoxIOS
    | _ => Platform.Other
  | DeviceFamily.Other => Platform.Other

/-- Lines 169-174: `version.split('.').next().and_then(|v| v.parse::<u32>().ok()).unwrap_or(0)`. -/
def firefoxVersionOf (version : String) : Nat :=
  ((splitDot version.data).head?.bind parseU32Chars).getD 0

/-- Lines 133-181: the browser-family gate
(`if !["firefox"].contains(&w_result.name.to_lowercase().as_str()) return default`)
followed by the three field mappings and the version extraction. -/
def classifyBaseline (w : WootheeResult) : DeviceInfo :=
  if !(["firefox"].contains (lowerStr w.name)) then DeviceInfo.default
  else
    let os := lowerStr w.os
    { platform := platformOf (deviceFamilyOf w.category os) (osFamilyOf os)
      device_family := deviceFamilyOf w.category os
      os_family := osFamilyOf os
      firefox_version := firefoxVersionOf w.version }

/-- The baseline after `unwrap_or_default` and the two in-place corrections of
lines 106-131, in source order. -/
def correctedBaseline (parse : String → Option WootheeResult) (user_agent : String) : WootheeResult :=
  correctSafari user_agent (correctIos user_agent ((parse user_agent).getD WootheeResult.default))

/-- Lines 105-182: the whole of `get_device_info`, parametrized by the external
Woothee parser. -/
def get_device_info (parse : String → Option WootheeResult) (user_agent : String) : DeviceInfo :=
  classifyBaseline (correctedBaseline parse user_agent)

/-! Helper lemmas shared by several results. -/

/-- When the corrected name lower-cases to `firefox` the gate passes and each
output field is the corresponding mapping of the corrected baseline. -/
theorem classifyBaseline_firefox (w : WootheeResult) (h : lowerStr w.name = "firefox") :
    classifyBaseline w =
      { platform := platformOf (deviceFamilyOf w.category (lowerStr w.os)) (osFamilyOf (lowerStr w.os))
        device_family := deviceFamilyOf w.category (lowerStr w.os)
        os_family := osFamilyOf (lowerStr w.os)
        firefox_version := firefoxVersionOf w.version } := by
  unfold classifyBaseline
  rw [h]
  rfl

/-- C1: for every input string, when the external parser yields no result the
classifier substitutes the default (all-empty) baseline and still produces a
`DeviceInfo` through the normal pipeline, rather than propagating the failure. -/
theorem get_device_info_fail_soft (parse : String → Option WootheeResult)
    (user_agent : String) (h : parse user_agent = none) :
    get_device_info parse user_agent =
      classifyBaseline (correctSafari user_agent (correctIos user_agent WootheeResult.default)) := by
  unfold get_device_info correctedBaseline
  rw [h]
  rfl

theorem get_device_info_fail_soft_witness :
    ((fun _ : String => (none : Option WootheeResult)) "" = none) ∧
      get_device_info (fun _ => none) "" =
        classifyBaseline (correctSafari "" (correctIos "" WootheeResult.default)) :=
  ⟨rfl, get_device_info_fail_soft (fun _ => none) "" rfl⟩

/-- C2: whenever the lower-cased browser name after the two correction rules is
not exactly `firefox`, the result is the default record (platform Other, device
family Other, OS family Other, version 0) with no further field mapping. -/
theorem get_device_info_gate (parse : String → Option WootheeResult) (user_agent : String)
    (h : lowerStr (correctedBaseline parse user_agent).name ≠ "firefox") :
    get_device_info parse user_agent =
      { platform := Platform.Other
        device_family := DeviceFamily.Other
        os_family := OsFamily.Other
        firefox_version := 0 } := by
  show classifyBaseline (correctedBaseline parse user_agent) = _
  unfold classifyBaseline
  rw [if_pos]
  · rfl
  · simp [List.contains, h]

theorem get_device_info_gate_witness :
    lowerStr (correctedBaseline (fun _ => some { name := "Chrome", category := "smartphone", os := "Android", version := "86.0" }) "Chrome/86").name ≠ "firefox" ∧
      get_device_info (fun _ => some { name := "Chrome", category := "smartphone", os := "Android", version := "86.0" }) "Chrome/86" =
        { platform := Platform.Other
          device_family := DeviceFamily.Other
          os_family := OsFamily.Other
          firefox_version := 0 } :=
  ⟨by decide, get_device_info_gate _ _ (by decide)⟩

/-- The platform field of any classification is the platform mapping applied to
its own device-family and OS-family fields, on both branches of the gate. -/
theorem classifyBaseline_platform (w : WootheeResult) :
    (classifyBaseline w).platform =
      platformOf (classifyBaseline w).device_family (classifyBaseline w).os_family := by
  unfold classifyBaseline
  split
  · rfl
  · rfl

/-- C3: every `DeviceInfo` the classifier produces satisfies the platform
derivation invariant: platform equals the step-7 table (Desktop to
FirefoxDesktop; Mobile+IOS to FirefoxIOS; Mobile+Android to Fenix; Tablet+IOS
to FirefoxIOS; everything else to Other) applied to the record's own
device-family and OS-family fields. -/
theorem get_device_info_platform_invariant (parse : String → Option WootheeResult)
    (user_agent : String) :
    (get_device_info parse user_agent).platform =
      platformOf (get_device_info parse user_agent).device_family
        (get_device_info parse user_agent).os_family :=
  classifyBaseline_platform (correctedBaseline parse user_agent)

/-- C8: `is_ios` holds exactly on Mobile combined with IOS, and in particular
is false on every Tablet record, IOS or not. -/
theorem is_ios_iff (d : DeviceInfo) :
    (d.is_ios = true ↔ d.device_family = DeviceFamily.Mobile ∧ d.os_family = OsFamily.IOS) ∧
    (d.device_family = DeviceFamily.Tablet → d.is_ios = false) := by
  obtain ⟨p, df, osf, v⟩ := d
  cases df <;> cases osf <;> simp [DeviceInfo.is_ios]

theorem is_ios_iff_witness :
    DeviceInfo.is_ios
      { platform := Platform.Other
        device_family := DeviceFamily.Tablet
        os_family := OsFamily.IOS
        firefox_version := 7 } = false :=
  (is_ios_iff _).2 rfl

/-- C9: no `DeviceInfo` is classified both desktop and mobile: `is_mobile`
needs device family Mobile with OS Android or IOS, while `is_desktop` needs
device family Desktop or OS MacOs, Windows or Linux, and the two conditions
exclude each other. -/
theorem is_desktop_is_mobile_exclusive (d : DeviceInfo) :
    (d.is_desktop && d.is_mobile) = false := by
  obtain ⟨p, df, osf, v⟩ := d
  cases df <;> cases osf <;> rfl

/-- Modelled from the spec: the external Woothee parser is not part of this
repository; §4 step 1 and the source comment at line 112 ("Both contain prefix
`Firefox-iOS` and are not successfully parsed by Woothee") say that on the two
non-standard Firefox-iOS formats it produces no result, so on those inputs it
is modelled as returning `none`, making `unwrap_or_default` substitute the
empty baseline. -/
def wootheeFailingParse : String → Option WootheeResult := fun _ => none

/-- C4 counterexample: with the parser failing on the non-standard string as
the source comment states, `classify("Firefox-iOS-FxA/24")` has firefox_version
0 and not 24: the iOS-prefix correction of lines 116-120 overrides name,
category and os but never the version field, and the substituted default
baseline carries an empty version. -/
theorem ios_prefix_version_counterexample :
    (get_device_info wootheeFailingParse "Firefox-iOS-FxA/24").firefox_version = 0 ∧
    ¬ (get_device_info wootheeFailingParse "Firefox-iOS-FxA/24").firefox_version = 24 := by
  decide

/-- C4 amended: when the external parser yields no result on the two
non-standard Firefox-iOS strings, both classify to platform FirefoxIOS, device
family Mobile, OS family IOS, and firefox_version 0 (not 24 and 108: the
version field is not reclaimed by the prefix correction). -/
theorem ios_prefix_classification (parse : String → Option WootheeResult)
    (h1 : parse "Firefox-iOS-FxA/24" = none)
    (h2 : parse "Firefox-iOS-Sync/108.1b24234 (iPad; iPhone OS 16.4.1) (Firefox)" = none) :
    get_device_info parse "Firefox-iOS-FxA/24" =
      { platform := Platform.FirefoxIOS
        device_family := DeviceFamily.Mobile
        os_family := OsFamily.IOS
        firefox_version := 0 } ∧
    get_device_info parse "Firefox-iOS-Sync/108.1b24234 (iPad; iPhone OS 16.4.1) (Firefox)" =
      { platform := Platform.FirefoxIOS
        device_family := DeviceFamily.Mobile
        os_family := OsFamily.IOS
        firefox_version := 0 } := by
  constructor
  · unfold get_device_info correctedBaseline
    rw [h1]
    decide
  · unfold get_device_info correctedBaseline
    rw [h2]
    decide

theorem ios_prefix_classification_witness :
    wootheeFailingParse "Firefox-iOS-FxA/24" = none ∧
    wootheeFailingParse "Firefox-iOS-Sync/108.1b24234 (iPad; iPhone OS 16.4.1) (Firefox)" = none ∧
    (get_device_info wootheeFailingParse "Firefox-iOS-FxA/24" =
      { platform := Platform.FirefoxIOS
        device_family := DeviceFamily.Mobile
        os_family := OsFamily.IOS
        firefox_version := 0 } ∧
    get_device_info wootheeFailingParse "Firefox-iOS-Sync/108.1b24234 (iPad; iPhone OS 16.4.1) (Firefox)" =
      { platform := Platform.FirefoxIOS
        device_family := DeviceFamily.Mobile
        os_family := OsFamily.IOS
        firefox_version := 0 }) :=
  ⟨rfl, rfl, ios_prefix_classification wootheeFailingParse rfl rfl⟩

/-- A baseline of the shape Woothee's Safari rule yields for any user agent
that carries a `Safari/` token and no Chrome token. -/
def safariBaseline : WootheeResult :=
  { name := "Safari", category := "pc", os := "Mac OSX", version := "605.1.15" }

/-- C5 counterexample: an input that starts with `Firefox-iOS` but whose
baseline name is `safari` (it carries a `Safari/` token) satisfies both
conditions of the claim -- baseline name `safari`, no `firefox/` substring --
yet classifies to device family Mobile, not Tablet, because the iOS-prefix
correction of lines 116-120 runs first and pre-empts the Safari rule. -/
theorem safari_ipad_counterexample :
    lowerStr (((fun _ : String => some safariBaseline) "Firefox-iOS-Foo Safari/605.1.15").getD WootheeResult.default).name = "safari" ∧
    containsStr (lowerStr "Firefox-iOS-Foo Safari/605.1.15") "firefox/" = false ∧
    (get_device_info (fun _ => some safariBaseline) "Firefox-iOS-Foo Safari/605.1.15").device_family = DeviceFamily.Mobile ∧
    DeviceFamily.Mobile ≠ DeviceFamily.Tablet := by
  decide

/-- Any gate-passing baseline with category smartphone and os token ipad maps
to Tablet, IOS, FirefoxIOS, whatever the version string is. -/
theorem classifyBaseline_ipad (v : String) :
    (classifyBaseline { name := "firefox", category := "smartphone", os := "ipad", version := v }).device_family = DeviceFamily.Tablet ∧
    (classifyBaseline { name := "firefox", category := "smartphone", os := "ipad", version := v }).os_family = OsFamily.IOS ∧
    (classifyBaseline { name := "firefox", category := "smartphone", os := "ipad", version := v }).platform = Platform.FirefoxIOS :=
  ⟨rfl, rfl, rfl⟩

/-- C5 amended: for every input whose baseline browser name lower-cases to
`safari`, whose lower-cased text has no `firefox/` substring, and which does
not start (case-insensitively) with `firefox-ios` -- so that the earlier
prefix correction does not pre-empt the Safari rule -- the result has device
family Tablet, OS family IOS and platform FirefoxIOS. -/
theorem safari_ipad_heuristic (parse : String → Option WootheeResult) (user_agent : String)
    (h1 : lowerStr ((parse user_agent).getD WootheeResult.default).name = "safari")
    (h2 : containsStr (lowerStr user_agent) "firefox/" = false)
    (h3 : startsWithStr (lowerStr user_agent) "firefox-ios" = false) :
    (get_device_info parse user_agent).device_family = DeviceFamily.Tablet ∧
    (get_device_info parse user_agent).os_family = OsFamily.IOS ∧
    (get_device_info parse user_agent).platform = Platform.FirefoxIOS := by
  have hw : correctedBaseline parse user_agent =
      { name := "firefox", category := "smartphone", os := "ipad",
        version := ((parse user_agent).getD WootheeResult.default).version } := by
    unfold correctedBaseline correctIos correctSafari
    simp [h1, h2, h3]
  have e : get_device_info parse user_agent =
      classifyBaseline
        { name := "firefox", category := "smartphone", os := "ipad",
          version := ((parse user_agent).getD WootheeResult.default).version } := by
    unfold get_device_info
    rw [hw]
  rw [e]
  exact classifyBaseline_ipad _

theorem safari_ipad_heuristic_witness :
    lowerStr (((fun _ : String => some safariBaseline) "Mozilla/5.0 (Macintosh; Intel Mac OS X 10_15_4) AppleWebKit/605.1.15 (KHTML, like Gecko) Version/13.1 Safari/605.1.15").getD WootheeResult.default).name = "safari" ∧
    containsStr (lowerStr "Mozilla/5.0 (Macintosh; Intel Mac OS X 10_15_4) AppleWebKit/605.1.15 (KHTML, like Gecko) Version/13.1 Safari/605.1.15") "firefox/" = false ∧
    startsWithStr (lowerStr "Mozilla/5.0 (Macintosh; Intel Mac OS X 10_15_4) AppleWebKit/605.1.15 (KHTML, like Gecko) Version/13.1 Safari/605.1.15") "firefox-ios" = false ∧
    ((get_device_info (fun _ => some safariBaseline) "Mozilla/5.0 (Macintosh; Intel Mac OS X 10_15_4) AppleWebKit/605.1.15 (KHTML, like Gecko) Version/13.1 Safari/605.1.15").device_family = DeviceFamily.Tablet ∧
    (get_device_info (fun _ => some safariBaseline) "Mozilla/5.0 (Macintosh; Intel Mac OS X 10_15_4) AppleWebKit/605.1.15 (KHTML, like Gecko) Version/13.1 Safari/605.1.15").os_family = OsFamily.IOS ∧
    (get_device_info (fun _ => some safariBaseline) "Mozilla/5.0 (Macintosh; Intel Mac OS X 10_15_4) AppleWebKit/605.1.15 (KHTML, like Gecko) Version/13.1 Safari/605.1.15").platform = Platform.FirefoxIOS) :=
  ⟨by decide, by decide, by decide,
    safari_ipad_heuristic _ _ (by decide) (by decide) (by decide)⟩

/-- OS-family mapping as the spec's step 5 states it, on the lower-cased
corrected OS token with the first matching rule winning, in this order. -/
def specOsFamily (token : String) : OsFamily :=
  if startsWithStr token "windows" then OsFamily.Windows
  else if token = "mac osx" then OsFamily.MacOs
  else if token = "linux" then OsFamily.Linux
  else if token = "iphone" ∨ token = "ipad" then OsFamily.IOS
  else if token = "android" then OsFamily.Android
  else OsFamily.Other

/-- The source's OS-family match agrees with the spec's ordered rule list on
every token. -/
theorem osFamilyOf_eq_spec (s : String) : osFamilyOf s = specOsFamily s := by
  unfold osFamilyOf specOsFamily
  split_ifs <;> simp_all

/-- C6: on every input that passes the browser-family gate, the OS family of
the result is the spec's ordered first-match rule list applied to the
lower-cased corrected OS token. -/
theorem os_family_mapping (parse : String → Option WootheeResult) (user_agent : String)
    (h : lowerStr (correctedBaseline parse user_agent).name = "firefox") :
    (get_device_info parse user_agent).os_family =
      specOsFamily (lowerStr (correctedBaseline parse user_agent).os) := by
  have e := classifyBaseline_firefox (correctedBaseline parse user_agent) h
  show (classifyBaseline (correctedBaseline parse user_agent)).os_family = _
  rw [e]
  exact osFamilyOf_eq_spec _

/-- A concrete gate-passing baseline used to witness the mapping results. -/
def winFirefoxParse : String → Option WootheeResult :=
  fun _ => some { name := "Firefox", category := "pc", os := "Windows 10", version := "115.0" }

theorem os_family_mapping_witness :
    lowerStr (correctedBaseline winFirefoxParse "agent").name = "firefox" ∧
    (get_device_info winFirefoxParse "agent").os_family =
      specOsFamily (lowerStr (correctedBaseline winFirefoxParse "agent").os) :=
  ⟨by decide, os_family_mapping winFirefoxParse "agent" (by decide)⟩

/-- Version rule as the spec's step 8 states it: split the version string on
the dot, take the first segment, parse it as a non-negative integer, fall back
to 0 on a missing segment, an empty segment or a parse failure. -/
def specFirefoxVersion (version : String) : Nat :=
  match parseU32Chars ((splitDot version.data).headD []) with
  | some n => n
  | none => 0

/-- The source's version extraction agrees with the spec's rule on every
version string. -/
theorem firefoxVersionOf_eq_spec (v : String) :
    firefoxVersionOf v = specFirefoxVersion v := by
  unfold firefoxVersionOf specFirefoxVersion
  cases h : splitDot v.data with
  | nil => simp [h, parseU32Chars, stripPlus]
  | cons a t =>
    cases hp : parseU32Chars a <;> simp [hp]

/-- C7: on every input that passes the browser-family gate, firefox_version is
the first dot-separated segment of the corrected version string parsed as a
non-negative integer, and 0 whenever that segment is empty, missing or does
not parse. -/
theorem version_extraction (parse : String → Option WootheeResult) (user_agent : String)
    (h : lowerStr (correctedBaseline parse user_agent).name = "firefox") :
    (get_device_info parse user_agent).firefox_version =
      specFirefoxVersion (correctedBaseline parse user_agent).version := by
  have e := classifyBaseline_firefox (correctedBaseline parse user_agent) h
  show (classifyBaseline (correctedBaseline parse user_agent)).firefox_version = _
  rw [e]
  exact firefoxVersionOf_eq_spec _

theorem version_extraction_witness :
    lowerStr (correctedBaseline winFirefoxParse "agent1").name = "firefox" ∧
    (get_device_info winFirefoxParse "agent1").firefox_version =
      specFirefoxVersion (correctedBaseline winFirefoxParse "agent1").version :=
  ⟨by decide, version_extraction winFirefoxParse "agent1" (by decide)⟩

/-- The u32 parse rejects any all-digit segment whose value exceeds the u32
maximum instead of truncating or saturating it. -/
theorem parseU32Chars_overflow (cs : List Char)
    (hd : cs.all Char.isDigit = true) (hv : 4294967295 < digitsToNat cs) :
    parseU32Chars cs = none := by
  cases cs with
  | nil => simp [digitsToNat] at hv
  | cons c rest =>
    have hc : c.isDigit = true := by
      have h' := hd
      simp [List.all_cons] at h'
      exact h'.1
    have hcp : ¬ c = '+' := by
      intro hcp
      rw [hcp] at hc
      exact absurd hc (by decide)
    have hnl : ¬ digitsToNat (c :: rest) < 4294967296 := by omega
    unfold parseU32Chars stripPlus
    simp [hcp, hd, hnl]

/-- C10: on every gate-passing input whose corrected version string has a
purely numeric first dot-separated segment whose value exceeds 2^32 - 1, the
u32 parse fails and firefox_version is 0 -- the value is neither truncated nor
saturated. -/
theorem version_overflow_yields_zero (parse : String → Option WootheeResult)
    (user_agent : String) (seg : List Char)
    (h : lowerStr (correctedBaseline parse user_agent).name = "firefox")
    (hseg : (splitDot (correctedBaseline parse user_agent).version.data).head? = some seg)
    (hd : seg.all Char.isDigit = true)
    (hv : 4294967295 < digitsToNat seg) :
    (get_device_info parse user_agent).firefox_version = 0 := by
  have e := classifyBaseline_firefox (correctedBaseline parse user_agent) h
  show (classifyBaseline (correctedBaseline parse user_agent)).firefox_version = 0
  rw [e]
  show firefoxVersionOf (correctedBaseline parse user_agent).version = 0
  unfold firefoxVersionOf
  rw [hseg]
  simp [parseU32Chars_overflow seg hd hv]

/-- A gate-passing baseline whose version segment overflows u32. -/
def overflowParse : String → Option WootheeResult :=
  fun _ => some { name := "Firefox", category := "pc", os := "Linux", version := "4294967296.0" }

theorem version_overflow_yields_zero_witness :
    lowerStr (correctedBaseline overflowParse "agent2").name = "firefox" ∧
    (splitDot (correctedBaseline overflowParse "agent2").version.data).head? = some "4294967296".data ∧
    "4294967296".data.all Char.isDigit = true ∧
    4294967295 < digitsToNat "4294967296".data ∧
    (get_device_info overflowParse "agent2").firefox_version = 0 :=
  ⟨by decide, by decide, by decide, by decide,
    version_overflow_yields_zero overflowParse "agent2" "4294967296".data
      (by decide) (by decide) (by decide) (by decide)⟩
